import Mathlib

/-!
Verification development for the trace-correlated logging core of the
`bun-ai-backend-template` repository (`src/logger.ts`, `src/observability.ts`).

The TypeScript source is shallowly embedded: the external OpenTelemetry API is
modelled as an explicit behaviour value (it may throw, return no span, or
return a span context), the captured stack trace is an explicit optional
string, JavaScript objects are association lists of string keys, and
try/catch is modelled with `Except`.
-/

namespace BunLog

/-- Values that may appear in a structured log record
(`Record<string, unknown>` on the TypeScript side). -/
inductive JsVal where
  | str : String → JsVal
  | num : Int → JsVal
  | bool : Bool → JsVal
  | null : JsVal
deriving DecidableEq, Repr

/-- A JavaScript object used as a log-record field bag: ordered key/value
pairs, later entries overwriting earlier ones on spread. -/
abbrev Fields := List (String × JsVal)

/-- Key lookup in a field bag; with the bags we build, later writes have been
collapsed so the first hit is the value. -/
def Fields.lookup (fs : Fields) (k : String) : Option JsVal :=
  List.lookup k fs

/-- The key set of a field bag. -/
def Fields.keys (fs : Fields) : List String :=
  fs.map Prod.fst

/-- JavaScript object spread `{...o, k: v}`: an existing binding for `k` is
overwritten, a missing one is appended. -/
def Fields.set (fs : Fields) (k : String) (v : JsVal) : Fields :=
  (fs.filter (fun p => p.1 != k)) ++ [(k, v)]

/-- The identifiers carried by an OpenTelemetry span context
(`activeSpan.spanContext()` in `src/observability.ts`). -/
structure SpanContext where
  traceId : String
  spanId : String
deriving DecidableEq, Repr

/-- The pair returned by `getTraceContext` on success. -/
structure TraceContext where
  traceId : String
  spanId : String
deriving DecidableEq, Repr

/-- Behaviour of the external tracing API call `trace.getActiveSpan()` (plus
the subsequent `spanContext()` call): it may throw (`Except.error`), report no
active span (`ok none`), or yield a span context. -/
abbrev TraceApi := Except Unit (Option SpanContext)

/-- The `try` body of `getTraceContext` (`src/observability.ts` lines
155-164): query the active span, and when present read its context. -/
def getTraceContextBody (api : TraceApi) : Except Unit (Option TraceContext) := do
  let activeSpan ← api
  match activeSpan with
  | some sc => pure (some ⟨sc.traceId, sc.spanId⟩)
  | none => pure none

/-- `getTraceContext` from `src/observability.ts`: the body wrapped in the
`catch` that silently converts any tracing-API failure into `undefined`. -/
def getTraceContext (api : TraceApi) : Option TraceContext :=
  match getTraceContextBody api with
  | .ok r => r
  | .error _ => none

/-- Console output levels used by `src/observability.ts`. -/
inductive ConsoleLevel where
  | log
  | warn
  | err
deriving DecidableEq, Repr

/-- A single console message: its level and text. -/
structure ConsoleMsg where
  level : ConsoleLevel
  text : String
deriving DecidableEq, Repr

/-- Behaviour of an OpenTelemetry `NodeSDK` handle: what its `shutdown()`
promise does (resolve, or reject with a message). -/
structure NodeSDKHandle where
  shutdownResult : Except String Unit
deriving Repr

/-- `shutdownOTel` from `src/observability.ts` lines 137-148: returns the
outcome of the returned promise together with the console messages emitted.
A `null` handle is an immediate no-op; a rejecting `shutdown()` is caught and
reported via `console.error`. -/
def shutdownOTel (sdk : Option NodeSDKHandle) : Except String Unit × List ConsoleMsg :=
  match sdk with
  | none => (.ok (), [])
  | some h =>
    match h.shutdownResult with
    | .ok () => (.ok (), [⟨.log, "OpenTelemetry SDK shutdown completed"⟩])
    | .error e => (.ok (), [⟨.err, "Error shutting down OpenTelemetry SDK: " ++ e⟩])

/-- Does `pat` occur as a substring of `s`? Models JavaScript
`String.prototype.includes`. -/
def containsSub (s pat : String) : Bool :=
  (List.range (s.data.length + 1)).any fun i => pat.data.isPrefixOf (s.data.drop i)

/-- Split a character list at every occurrence of the separator; models
JavaScript `String.prototype.split` with a one-character separator
(`"".split(sep)` gives `[""]`, a trailing separator yields a final `""`). -/
def splitOnChar (sep : Char) : List Char → List (List Char)
  | [] => [[]]
  | c :: rest =>
    match splitOnChar sep rest with
    | [] => [[]]
    | hd :: tl => if c = sep then [] :: hd :: tl else (c :: hd) :: tl

/-- `s.split(sep)` for a one-character separator, on strings. -/
def splitString (sep : Char) (s : String) : List String :=
  (splitOnChar sep s.data).map fun l => ⟨l⟩

/-- Split the character list `cs` as `d1 ++ [:] ++ d2` with both `d1` and
`d2` nonempty digit runs and nothing else: this is exactly how the suffix
`(\d+):(\d+)` of the two stack-frame regexes of `src/logger.ts` can match a
remainder that must be consumed to the end of the line. -/
def twoNums (cs : List Char) : Option (List Char × List Char) :=
  let d1 := cs.takeWhile Char.isDigit
  let rest := cs.dropWhile Char.isDigit
  match rest with
  | ':' :: d2 =>
    if d1 ≠ [] ∧ d2 ≠ [] ∧ d2.all Char.isDigit then some (d1, d2) else none
  | _ => none

/-- Greedy decomposition `cs = file ++ [:] ++ d1 ++ [:] ++ d2` with `file`
nonempty and as long as possible, mirroring the backtracking of the greedy
group `(.+)` in `(.+):(\d+):(\d+)` when the whole of `cs` must be consumed.
Returns the captured groups `(file, d1, d2)`. -/
def bestSplit (cs : List Char) : Option (List Char × List Char × List Char) :=
  (List.range cs.length).reverse.findSome? fun f =>
    if 1 ≤ f ∧ cs.get? f = some ':' then
      match twoNums (cs.drop (f + 1)) with
      | some (d1, d2) => some (cs.take f, d1, d2)
      | none => none
    else none

/-- Leftmost match of the first stack-frame regex `\((.+):(\d+):(\d+)\)$` of
`src/logger.ts` line 37: scan for an opening parenthesis such that everything
after it up to the line's final `)` splits greedily as `file:line:column`.
Returns the captured `(file, line)` groups. -/
def findParenMatch : List Char → Option (List Char × List Char)
  | [] => none
  | c :: rest =>
    if c = '(' then
      match (if rest.getLast? = some ')' then bestSplit rest.dropLast else none) with
      | some (f, d1, _) => some (f, d1)
      | none => findParenMatch rest
    else findParenMatch rest

/-- Recognise the literal `at ` at the head of the character list, giving the
remaining characters. -/
def atHead : List Char → Option (List Char)
  | 'a' :: 't' :: ' ' :: rest => some rest
  | _ => none

/-- Leftmost match of the second stack-frame regex `at (.+):(\d+):(\d+)$` of
`src/logger.ts` line 37: scan for the literal `at ` such that everything
after it splits greedily as `file:line:column` consuming the rest of the
line. Returns the captured `(file, line)` groups. -/
def findAtMatch : List Char → Option (List Char × List Char)
  | [] => none
  | c :: rest =>
    match (match atHead (c :: rest) with
           | some tl =>
             match bestSplit tl with
             | some (f, d1, _) => some (f, d1)
             | none => none
           | none => none) with
    | some r => some r
    | none => findAtMatch rest

/-- `line.match(re1) || line.match(re2)` from `src/logger.ts` line 37: try the
parenthesised pattern first, then the bare `at file:line:column` pattern.
Returns the captured file path and line number as strings. -/
def matchStackLine (line : String) : Option (String × String) :=
  match findParenMatch line.data with
  | some (f, d) => some (⟨f⟩, ⟨d⟩)
  | none =>
    match findAtMatch line.data with
    | some (f, d) => some (⟨f⟩, ⟨d⟩)
    | none => none

/-- `parseFileName` from `src/logger.ts` lines 15-19: final `/`-separated
segment of the path, with `'unknown'` for a missing/empty path or an empty
final segment (JavaScript `split('/').pop()` plus `||` falsiness). -/
def parseFileName (filePath : Option String) : String :=
  match filePath with
  | none => "unknown"
  | some p =>
    if p = "" then "unknown"
    else
      let fileName := (splitString '/' p).getLastD ""
      if fileName = "" then "unknown" else fileName

/-- The frame scan of `getCallerInfo` (`src/logger.ts` lines 33-45): walk the
remaining stack lines in order; skip empty lines and lines containing
`node_modules` or `pino`; on the first remaining line that matches one of the
two frame regexes, answer `filename:line`. -/
def scanFrames : List String → Option String
  | [] => none
  | l :: rest =>
    if l ≠ "" ∧ ¬ containsSub l "node_modules" ∧ ¬ containsSub l "pino" then
      match matchStackLine l with
      | some (file, lineNum) => some (parseFileName (some file) ++ ":" ++ lineNum)
      | none => scanFrames rest
    else scanFrames rest

/-- `getCallerInfo` from `src/logger.ts` lines 26-50, with the captured
`new Error().stack` made an explicit input (`none` models an unavailable
stack). Splits the stack into lines, skips the first three (Error header,
`getCallerInfo` itself, the mixin frame) and scans the rest. -/
def getCallerInfo (stack : Option String) : Option String :=
  match stack with
  | none => none
  | some st => scanFrames ((splitString '\n' st).drop 3)

/-- `createLogMixin` from `src/logger.ts` lines 56-75, with the ambient
tracing-API behaviour and captured stack as explicit inputs: add
`trace_id`/`span_id` when a trace context is available, and `caller` when
location is enabled and resolvable. -/
def createLogMixin (includeLocation : Bool) (api : TraceApi) (stack : Option String) :
    Fields :=
  let traceContext := getTraceContext api
  let m1 : Fields :=
    match traceContext with
    | some tc => [("trace_id", .str tc.traceId), ("span_id", .str tc.spanId)]
    | none => []
  if includeLocation then
    match getCallerInfo stack with
    | some c => m1 ++ [("caller", .str c)]
    | none => m1
  else m1

/-- The environment keys read by `createLoggerConfig` (`src/logger.ts` lines
81-90); `none` models an unset variable. -/
structure Env where
  NODE_ENV : Option String := none
  LOG_LEVEL : Option String := none
  LOG_INCLUDE_LOCATION : Option String := none
  OTEL_SERVICE_NAME : Option String := none
  npm_package_name : Option String := none
  OTEL_SERVICE_VERSION : Option String := none
  npm_package_version : Option String := none
deriving DecidableEq, Repr

/-- JavaScript `a || b` on an optional string: an unset or empty (falsy)
value falls through to the default. -/
def jsOr (a : Option String) (b : String) : String :=
  match a with
  | some s => if s = "" then b else s
  | none => b

/-- The observable parts of the `pino.LoggerOptions` object built by
`createLoggerConfig` (`src/logger.ts` lines 81-129): the level, whether the
mixin includes caller location, whether the pretty transport is omitted
(production), and the `service`/`version` fields of the bindings formatter. -/
structure LoggerOptions where
  level : String
  includeLocation : Bool
  isProduction : Bool
  service : String
  version : String
deriving DecidableEq, Repr

/-- `createLoggerConfig` from `src/logger.ts` lines 81-129, restricted to the
observable option fields above; every derivation mirrors the source
expression (`||` chains, `===`/`!==` comparisons). -/
def createLoggerConfig (env : Env) : LoggerOptions :=
  { isProduction := env.NODE_ENV = some "production"
    includeLocation := env.LOG_INCLUDE_LOCATION ≠ some "false"
    level := jsOr env.LOG_LEVEL "info"
    service := jsOr env.OTEL_SERVICE_NAME (jsOr env.npm_package_name "ts-backend-template")
    version := jsOr env.OTEL_SERVICE_VERSION (jsOr env.npm_package_version "1.0.0") }

/-- A constructed pino logger instance: its options plus an allocation
identifier distinguishing separately constructed instances (referential
identity of the JavaScript object). -/
structure Logger where
  id : Nat
  options : LoggerOptions
deriving DecidableEq, Repr

/-- `createLogger` from `src/logger.ts` lines 135-138: use the explicit
config when given, otherwise build one from the current environment; `fresh`
is the allocation identifier of the new pino instance. -/
def createLogger (config : Option LoggerOptions) (env : Env) (fresh : Nat) : Logger :=
  ⟨fresh, config.getD (createLoggerConfig env)⟩

/-- The mutable fields of a `LoggerFactory` (`src/logger.ts` lines 144-164):
the cached instance and the optional constructor-supplied config. -/
structure FactoryState where
  cachedLogger : Option Logger
  cfg : Option LoggerOptions
deriving DecidableEq, Repr

/-- `new LoggerFactory(config?)`: no cached instance yet. -/
def FactoryState.mk0 (config : Option LoggerOptions) : FactoryState :=
  ⟨none, config⟩

/-- `LoggerFactory.getLogger` (`src/logger.ts` lines 154-159): return the
cached instance, or construct one from the stored config (falling back to
the environment current at this call) and cache it. Returns the logger, the
updated factory state, and the next allocation identifier. -/
def FactoryState.getLogger (s : FactoryState) (env : Env) (fresh : Nat) :
    Logger × FactoryState × Nat :=
  match s.cachedLogger with
  | some l => (l, s, fresh)
  | none =>
    let l := createLogger s.cfg env fresh
    (l, { s with cachedLogger := some l }, fresh + 1)

/-- `LoggerFactory.reset` (`src/logger.ts` lines 161-163): drop the cached
instance only; the stored config is kept. -/
def FactoryState.reset (s : FactoryState) : FactoryState :=
  { s with cachedLogger := none }

/-- A pino logger view as used for emission: the fields bound into it
(`child` bindings). Modelled from the spec: pino itself is an external
dependency; §3 "Child Logger — a view bound with a fixed set of extra
fields", §4.5. -/
structure PinoView where
  bindings : Fields
deriving DecidableEq, Repr

/-- Record emission through a view. Modelled from the spec (§4.3, §6 output
format): the emitted record carries the view's bound fields, then the mixin
fields resolved at this emission, then the caller-supplied fields. -/
def emitRecord (l : PinoView) (mixin : Fields) (data : Fields) : Fields :=
  l.bindings ++ mixin ++ data

/-- `logger.child(context)`. Modelled from the spec (§4.5: a view merging
`fields` into every record, sharing the parent's sink, not mutating the
parent): returns the child view together with the parent's state after the
call. -/
def pinoChild (parent : PinoView) (context : Fields) : PinoView × PinoView :=
  (⟨parent.bindings ++ context⟩, parent)

/-- `createChildLogger` from `src/logger.ts` lines 185-187, applied to an
explicit base logger view: delegates to `logger.child(context)`. -/
def createChildLogger (base : PinoView) (context : Fields) : PinoView × PinoView :=
  pinoChild base context

/-- The log levels accepted by `logWithTrace`. -/
inductive LogLevel where
  | info
  | warn
  | err
  | debug
deriving DecidableEq, Repr

/-- The data bag built by `logWithTrace` (`src/logger.ts` lines 197-200):
when a trace context is active, spread the caller's `data` first and then the
`trace_id`/`span_id` fields (so they overwrite); otherwise pass `data`
through unmodified. `data = none` models an omitted argument, kept distinct
from an empty object. -/
def logWithTraceData (api : TraceApi) (data : Option Fields) : Option Fields :=
  match getTraceContext api with
  | some tc =>
    some ((((data.getD []).set "trace_id" (.str tc.traceId)).set "span_id" (.str tc.spanId)))
  | none => data

/-- `logWithTrace` from `src/logger.ts` lines 192-219: build the data bag and
dispatch on the level (the `default` arm of the switch also emits at `info`).
Returns the level emitted at and the data bag passed to the logger. -/
def logWithTrace (level : LogLevel) (api : TraceApi) (data : Option Fields) :
    LogLevel × Option Fields :=
  let logData := logWithTraceData api data
  match level with
  | .debug => (.debug, logData)
  | .info => (.info, logData)
  | .warn => (.warn, logData)
  | .err => (.err, logData)

/-! ### Claim-side reference definitions

These follow the wording of the specification / claims, to be compared with
the definitions translated from the source. -/

/-- Per the claim wording for the caller-location resolver: "the final path
segment of the frame's file path (directory components dropped)". -/
def claimFileSegment (file : String) : String :=
  (splitString '/' file).getLastD ""

/-- A stack line the claim's scan keeps: one containing neither
`node_modules` nor `pino`. -/
def claimQualifies (l : String) : Bool :=
  !containsSub l "node_modules" && !containsSub l "pino"

/-- The caller-location pipeline exactly as the claim states it: skip the
first 3 stack lines, drop the frames marked `node_modules`/`pino`, and for
the first remaining frame that matches a `file:line:column` pattern answer
`filename:line` with `filename` the final path segment. -/
def claimCallerInfo (stack : Option String) : Option String :=
  match stack with
  | none => none
  | some st =>
    ((((splitString '\n' st).drop 3).filter claimQualifies).findSome?
      (fun l => (matchStackLine l).map (fun p => claimFileSegment p.1 ++ ":" ++ p.2)))

/-- The amended caller-location pipeline: as `claimCallerInfo`, but when the
final path segment is empty the string `unknown` is substituted. -/
def claimCallerInfoAmended (stack : Option String) : Option String :=
  match stack with
  | none => none
  | some st =>
    ((((splitString '\n' st).drop 3).filter claimQualifies).findSome?
      (fun l => (matchStackLine l).map
        (fun p =>
          (if claimFileSegment p.1 = "" then "unknown" else claimFileSegment p.1)
            ++ ":" ++ p.2)))

/-- Per the claim wording for configuration: "the first present of" a chain
of optional values, with a default. -/
def claimFirstPresent (opts : List (Option String)) (dflt : String) : String :=
  match opts.findSome? id with
  | some s => s
  | none => dflt

/-- The amended configuration chain: the first value that is present and
non-empty, with a default. -/
def claimFirstNonEmpty (opts : List (Option String)) (dflt : String) : String :=
  match opts.findSome? (fun o =>
    match o with
    | some s => if s = "" then none else some s
    | none => none) with
  | some s => s
  | none => dflt

/-- The claim for `shutdownOTel` as stated: always resolves; a null handle is
a no-op; a rejecting `shutdown()` is caught and logged as a warning-level
message naming the failure, never re-thrown. -/
def claimShutdownAt (sdk : Option NodeSDKHandle) : Prop :=
  (shutdownOTel sdk).1 = .ok () ∧
  (sdk = none → (shutdownOTel sdk).2 = []) ∧
  (∀ h e, sdk = some h → h.shutdownResult = .error e →
    ∃ m ∈ (shutdownOTel sdk).2, m.level = .warn ∧ containsSub m.text e)

/-! ### Helper lemmas -/

theorem parseFileName_eq_segment (p : String) :
    parseFileName (some p) =
      (if claimFileSegment p = "" then "unknown" else claimFileSegment p) := by
  by_cases h : p = ""
  · subst h
    decide
  · simp [parseFileName, claimFileSegment, h]

theorem matchStackLine_empty : matchStackLine "" = none := by
  decide

theorem claimQualifies_iff (l : String) :
    claimQualifies l = true ↔
      (¬ containsSub l "node_modules" = true ∧ ¬ containsSub l "pino" = true) := by
  simp [claimQualifies]

theorem scanFrames_eq (ls : List String) :
    scanFrames ls =
      (ls.filter claimQualifies).findSome?
        (fun l => (matchStackLine l).map
          (fun p =>
            (if claimFileSegment p.1 = "" then "unknown" else claimFileSegment p.1)
              ++ ":" ++ p.2)) := by
  induction ls with
  | nil => rfl
  | cons l rest ih =>
    rw [scanFrames]
    by_cases hempty : l = ""
    · subst hempty
      have h0 : claimQualifies "" = true := by decide
      simp [List.filter_cons, h0, List.findSome?_cons, matchStackLine_empty, ih]
    · cases hq : claimQualifies l with
      | true =>
        have hcond := (claimQualifies_iff l).mp hq
        rw [if_pos ⟨hempty, hcond.1, hcond.2⟩]
        cases hm : matchStackLine l with
        | none => simp [List.filter_cons, hq, List.findSome?_cons, hm, ih]
        | some p => simp [List.filter_cons, hq, List.findSome?_cons, hm, parseFileName_eq_segment]
      | false =>
        have hcond : ¬ (¬ containsSub l "node_modules" = true ∧ ¬ containsSub l "pino" = true) := by
          intro hc
          rw [← claimQualifies_iff] at hc
          simp [hq] at hc
        rw [if_neg (fun hc => hcond ⟨hc.2.1, hc.2.2⟩)]
        simp [List.filter_cons, hq, ih]

theorem lookup_append (A B : Fields) (k : String) :
    List.lookup k (A ++ B) = (List.lookup k A).or (List.lookup k B) := by
  induction A with
  | nil => simp [List.lookup]
  | cons p rest ih =>
    obtain ⟨pk, pv⟩ := p
    simp only [List.cons_append, List.lookup]
    cases hb : (k == pk) <;> simp [hb, ih]

theorem lookup_filter_self (l : Fields) (k : String) :
    List.lookup k (l.filter (fun p => p.1 != k)) = none := by
  induction l with
  | nil => rfl
  | cons p rest ih =>
    obtain ⟨pk, pv⟩ := p
    rw [List.filter_cons]
    by_cases hp : pk = k
    · subst hp
      simp only [bne_self_eq_false, if_false]
      exact ih
    · have hq : (pk != k) = true := by simp [bne, hp]
      rw [if_pos hq, List.lookup]
      have hb : (k == pk) = false := by simp [Ne.symm hp]
      simp only [hb]
      exact ih

theorem lookup_filter_ne (l : Fields) {k k' : String} (h : k ≠ k') :
    List.lookup k (l.filter (fun p => p.1 != k')) = List.lookup k l := by
  induction l with
  | nil => rfl
  | cons p rest ih =>
    obtain ⟨pk, pv⟩ := p
    rw [List.filter_cons]
    by_cases hp : pk = k'
    · subst hp
      simp only [bne_self_eq_false, if_false]
      have hb : (k == pk) = false := by simp [h]
      rw [List.lookup]
      simp only [hb]
      exact ih
    · have hq : (pk != k') = true := by simp [bne, hp]
      rw [if_pos hq, List.lookup, List.lookup]
      cases hb : (k == pk) <;> simp [hb, ih]

theorem Fields.lookup_set_self (l : Fields) (k : String) (v : JsVal) :
    (l.set k v).lookup k = some v := by
  unfold Fields.set Fields.lookup
  rw [lookup_append, lookup_filter_self]
  simp [List.lookup]

theorem Fields.lookup_set_ne (l : Fields) {k k' : String} {v : JsVal} (h : k ≠ k') :
    (l.set k' v).lookup k = l.lookup k := by
  unfold Fields.set Fields.lookup
  rw [lookup_append, lookup_filter_ne l h]
  have hb : (k == k') = false := by simp [h]
  simp [List.lookup, hb]

/-- C4: `getTraceContext` never throws: whatever the tracing API does —
including throwing — the call returns the active span's identifiers or
absent; an API failure is caught and converted to absent. -/
theorem getTraceContext_never_throws (api : TraceApi) :
    (∀ e : Unit, api = .error e → getTraceContext api = none) ∧
    (api = .ok none → getTraceContext api = none) ∧
    (∀ sc : SpanContext, api = .ok (some sc) →
      getTraceContext api = some ⟨sc.traceId, sc.spanId⟩) := by
  refine ⟨?_, ?_, ?_⟩
  · intro e he
    subst he
    rfl
  · intro he
    subst he
    rfl
  · intro sc he
    subst he
    rfl

theorem getTraceContext_never_throws_witness :
    getTraceContext (.error ()) = none ∧
    getTraceContext (.ok none) = none ∧
    getTraceContext (.ok (some ⟨"t1", "s1"⟩)) = some ⟨"t1", "s1"⟩ :=
  ⟨(getTraceContext_never_throws (.error ())).1 () rfl,
   (getTraceContext_never_throws (.ok none)).2.1 rfl,
   (getTraceContext_never_throws (.ok (some ⟨"t1", "s1"⟩))).2.2 ⟨"t1", "s1"⟩ rfl⟩

/-- C1: when a trace context is active at emission time, the mixin carries
`trace_id`/`span_id` exactly equal to that context's identifiers; when no
trace is active, the mixin contains neither key (not a sentinel value). -/
theorem createLogMixin_trace_invariant (inc : Bool) (api : TraceApi) (stack : Option String) :
    (∀ tc : TraceContext, getTraceContext api = some tc →
      (createLogMixin inc api stack).lookup "trace_id" = some (.str tc.traceId) ∧
      (createLogMixin inc api stack).lookup "span_id" = some (.str tc.spanId)) ∧
    (getTraceContext api = none →
      "trace_id" ∉ (createLogMixin inc api stack).keys ∧
      "span_id" ∉ (createLogMixin inc api stack).keys) := by
  constructor
  · intro tc htc
    unfold createLogMixin
    rw [htc]
    cases inc <;> cases hc : getCallerInfo stack <;>
      simp [Fields.lookup, List.lookup]
  · intro htc
    unfold createLogMixin
    rw [htc]
    cases inc <;> cases hc : getCallerInfo stack <;>
      simp [Fields.keys]

theorem createLogMixin_trace_invariant_witness :
    ((createLogMixin true (.ok (some ⟨"abcd1234", "ef56"⟩)) none).lookup "trace_id"
        = some (.str "abcd1234") ∧
      (createLogMixin true (.ok (some ⟨"abcd1234", "ef56"⟩)) none).lookup "span_id"
        = some (.str "ef56")) ∧
    ("trace_id" ∉ (createLogMixin true (.ok none) none).keys ∧
      "span_id" ∉ (createLogMixin true (.ok none) none).keys) :=
  ⟨(createLogMixin_trace_invariant true (.ok (some ⟨"abcd1234", "ef56"⟩)) none).1
      ⟨"abcd1234", "ef56"⟩ rfl,
   (createLogMixin_trace_invariant true (.ok none) none).2 rfl⟩

/-- C3: the mixin contains only keys whose underlying value resolved (each
entry is the string that was resolved for it, never a null/undefined
binding); and with an active `{traceId: "abcd1234", spanId: "ef56"}` context,
`createLogMixin false` is exactly the two trace fields with no caller key. -/
theorem createLogMixin_only_resolved (inc : Bool) (api : TraceApi) (stack : Option String) :
    (∀ k v, (k, v) ∈ createLogMixin inc api stack →
      (k = "trace_id" ∧ ∃ tc, getTraceContext api = some tc ∧ v = .str tc.traceId) ∨
      (k = "span_id" ∧ ∃ tc, getTraceContext api = some tc ∧ v = .str tc.spanId) ∨
      (k = "caller" ∧ inc = true ∧ ∃ c, getCallerInfo stack = some c ∧ v = .str c)) ∧
    (∀ stack2 : Option String,
      createLogMixin false (.ok (some ⟨"abcd1234", "ef56"⟩)) stack2 =
        [("trace_id", .str "abcd1234"), ("span_id", .str "ef56")]) := by
  constructor
  · intro k v hmem
    unfold createLogMixin at hmem
    cases htc : getTraceContext api <;> rw [htc] at hmem
    case none =>
      cases inc with
      | false => simp at hmem
      | true =>
        cases hc : getCallerInfo stack <;> rw [hc] at hmem
        case none => simp at hmem
        case some c =>
          simp at hmem
          obtain ⟨hk, hv⟩ := hmem
          exact Or.inr (Or.inr ⟨hk, rfl, c, rfl, hv⟩)
    case some tc =>
      cases inc with
      | false =>
        simp at hmem
        rcases hmem with ⟨hk, hv⟩ | ⟨hk, hv⟩
        · exact Or.inl ⟨hk, tc, rfl, hv⟩
        · exact Or.inr (Or.inl ⟨hk, tc, rfl, hv⟩)
      | true =>
        cases hc : getCallerInfo stack <;> rw [hc] at hmem
        case none =>
          simp at hmem
          rcases hmem with ⟨hk, hv⟩ | ⟨hk, hv⟩
          · exact Or.inl ⟨hk, tc, rfl, hv⟩
          · exact Or.inr (Or.inl ⟨hk, tc, rfl, hv⟩)
        case some c =>
          simp at hmem
          rcases hmem with ⟨hk, hv⟩ | ⟨hk, hv⟩ | ⟨hk, hv⟩
          · exact Or.inl ⟨hk, tc, rfl, hv⟩
          · exact Or.inr (Or.inl ⟨hk, tc, rfl, hv⟩)
          · exact Or.inr (Or.inr ⟨hk, rfl, c, rfl, hv⟩)
  · intro stack2
    rfl

theorem createLogMixin_only_resolved_witness :
    (("trace_id", JsVal.str "abcd1234")
        ∈ createLogMixin false (.ok (some ⟨"abcd1234", "ef56"⟩)) none ∧
      (("trace_id" = "trace_id" ∧
          ∃ tc, getTraceContext (.ok (some ⟨"abcd1234", "ef56"⟩)) = some tc ∧
            JsVal.str "abcd1234" = .str tc.traceId) ∨
        ("trace_id" = "span_id" ∧
          ∃ tc, getTraceContext (.ok (some ⟨"abcd1234", "ef56"⟩)) = some tc ∧
            JsVal.str "abcd1234" = .str tc.spanId) ∨
        ("trace_id" = "caller" ∧ false = true ∧
          ∃ c, getCallerInfo none = some c ∧ JsVal.str "abcd1234" = .str c))) ∧
    createLogMixin false (.ok (some ⟨"abcd1234", "ef56"⟩)) none =
      [("trace_id", .str "abcd1234"), ("span_id", .str "ef56")] :=
  ⟨⟨by decide,
    (createLogMixin_only_resolved false (.ok (some ⟨"abcd1234", "ef56"⟩)) none).1
      "trace_id" (.str "abcd1234") (by decide)⟩,
   (createLogMixin_only_resolved false (.ok (some ⟨"abcd1234", "ef56"⟩)) none).2 none⟩

/-- C2 counterexample: on the stack whose first qualifying frame is
`    at x/:1:2`, the file path captured by the frame pattern is `x/`, whose
final path segment is empty; the claim's pipeline therefore answers `":1"`,
but `getCallerInfo` substitutes the placeholder `unknown` and answers
`"unknown:1"`. -/
theorem getCallerInfo_counterexample :
    getCallerInfo (some "E\nA\nB\n    at x/:1:2") = some "unknown:1" ∧
    claimCallerInfo (some "E\nA\nB\n    at x/:1:2") = some ":1" ∧
    getCallerInfo (some "E\nA\nB\n    at x/:1:2") ≠
      claimCallerInfo (some "E\nA\nB\n    at x/:1:2") := by
  refine ⟨by decide, by decide, by decide⟩

/-- C2 (amended): `getCallerInfo` never throws and equals, on every stack,
the claimed pipeline — skip the first 3 lines, drop `node_modules`/`pino`
frames, return `filename:line` for the first remaining frame matching a
`file:line:column` pattern with `filename` the final path segment (`unknown`
when that segment is empty), and absent when the stack is unavailable or no
qualifying frame matches. -/
theorem getCallerInfo_eq_claim (stack : Option String) :
    getCallerInfo stack = claimCallerInfoAmended stack := by
  cases stack with
  | none => rfl
  | some st =>
    show scanFrames ((splitString '\n' st).drop 3) = _
    rw [scanFrames_eq]
    rfl

/-- The single-link `||` fallback agrees with "first present and non-empty". -/
theorem jsOr_eq_claim (a : Option String) (b : String) :
    jsOr a b = claimFirstNonEmpty [a] b := by
  cases a with
  | none => rfl
  | some s =>
    by_cases h : s = "" <;> simp [jsOr, claimFirstNonEmpty, List.findSome?, h]

/-- The two-link `||` chain agrees with "first present and non-empty". -/
theorem jsOr_jsOr_eq_claim (a b : Option String) (c : String) :
    jsOr a (jsOr b c) = claimFirstNonEmpty [a, b] c := by
  cases a with
  | none =>
    cases b with
    | none => rfl
    | some s => by_cases h : s = "" <;> simp [jsOr, claimFirstNonEmpty, List.findSome?, h]
  | some s =>
    by_cases h : s = "" <;>
      cases b <;>
        simp [jsOr, claimFirstNonEmpty, List.findSome?, h] <;>
        split <;> simp_all

/-- C5 counterexample: with `LOG_LEVEL` present but the empty string, the
claim says the level equals that present value (`""`), while
`createLoggerConfig` falls back to `"info"` (JavaScript `||` treats `""` as
absent). -/
theorem createLoggerConfig_counterexample :
    (createLoggerConfig { LOG_LEVEL := some "" }).level = "info" ∧
    claimFirstPresent [Env.LOG_LEVEL { LOG_LEVEL := some "" }] "info" = "" ∧
    (createLoggerConfig { LOG_LEVEL := some "" }).level ≠
      claimFirstPresent [Env.LOG_LEVEL { LOG_LEVEL := some "" }] "info" := by
  refine ⟨by decide, by decide, by decide⟩

/-- C5 (amended): `createLoggerConfig` derives the level as the first present
and non-empty of `LOG_LEVEL` then `"info"`; caller location unless
`LOG_INCLUDE_LOCATION` is exactly `"false"`; production exactly when
`NODE_ENV` is `"production"`; and service name/version as the first present
and non-empty of their documented chains. -/
theorem createLoggerConfig_eq_claim (env : Env) :
    (createLoggerConfig env).level = claimFirstNonEmpty [env.LOG_LEVEL] "info" ∧
    ((createLoggerConfig env).includeLocation = true ↔
      env.LOG_INCLUDE_LOCATION ≠ some "false") ∧
    ((createLoggerConfig env).isProduction = true ↔ env.NODE_ENV = some "production") ∧
    (createLoggerConfig env).service =
      claimFirstNonEmpty [env.OTEL_SERVICE_NAME, env.npm_package_name] "ts-backend-template" ∧
    (createLoggerConfig env).version =
      claimFirstNonEmpty [env.OTEL_SERVICE_VERSION, env.npm_package_version] "1.0.0" := by
  refine ⟨jsOr_eq_claim _ _, ?_, ?_, jsOr_jsOr_eq_claim _ _ _, jsOr_jsOr_eq_claim _ _ _⟩
  · simp [createLoggerConfig]
  · simp [createLoggerConfig]

/-- C6: two `getLogger()` calls with no intervening `reset()` return the same
instance: the second call returns the value of the first unchanged, allocates
nothing, leaves the factory state unchanged (so every later call also returns
it), and the first call on an empty cache constructs exactly once from the
configuration current at that moment — a later environment (`env2`) plays no
role. -/
theorem getLogger_idempotent (s : FactoryState) (env1 env2 : Env) (fresh : Nat) :
    ((s.getLogger env1 fresh).2.1.getLogger env2 (s.getLogger env1 fresh).2.2).1
        = (s.getLogger env1 fresh).1 ∧
    ((s.getLogger env1 fresh).2.1.getLogger env2 (s.getLogger env1 fresh).2.2).2.1
        = (s.getLogger env1 fresh).2.1 ∧
    ((s.getLogger env1 fresh).2.1.getLogger env2 (s.getLogger env1 fresh).2.2).2.2
        = (s.getLogger env1 fresh).2.2 ∧
    (s.cachedLogger = none →
      (s.getLogger env1 fresh).1 = createLogger s.cfg env1 fresh ∧
      (s.getLogger env1 fresh).2.2 = fresh + 1) := by
  obtain ⟨cached, cfg⟩ := s
  cases cached <;> simp [FactoryState.getLogger]

theorem getLogger_idempotent_witness :
    (((FactoryState.mk none none).getLogger {} 0).2.1.getLogger {}
          ((FactoryState.mk none none).getLogger {} 0).2.2).1
        = ((FactoryState.mk none none).getLogger {} 0).1 ∧
    ((FactoryState.mk none none).getLogger {} 0).1 = createLogger none {} 0 ∧
    ((FactoryState.mk none none).getLogger {} 0).2.2 = 0 + 1 :=
  ⟨(getLogger_idempotent (FactoryState.mk none none) {} {} 0).1,
   ((getLogger_idempotent (FactoryState.mk none none) {} {} 0).2.2.2 rfl).1,
   ((getLogger_idempotent (FactoryState.mk none none) {} {} 0).2.2.2 rfl).2⟩

/-- C7: `reset()` followed by `getLogger()` constructs a fresh instance,
distinct from the one cached before the reset, built from the configuration
current at the post-reset call (the stored constructor config if any,
otherwise the environment at that moment). -/
theorem reset_then_getLogger_fresh (c : Option LoggerOptions) (env1 env2 : Env)
    (fresh : Nat) :
    ((((FactoryState.mk0 c).getLogger env1 fresh).2.1.reset).getLogger env2
          (((FactoryState.mk0 c).getLogger env1 fresh).2.2)).1
        ≠ ((FactoryState.mk0 c).getLogger env1 fresh).1 ∧
    ((((FactoryState.mk0 c).getLogger env1 fresh).2.1.reset).getLogger env2
          (((FactoryState.mk0 c).getLogger env1 fresh).2.2)).1.options
        = c.getD (createLoggerConfig env2) ∧
    ((((FactoryState.mk0 c).getLogger env1 fresh).2.1.reset).getLogger env2
          (((FactoryState.mk0 c).getLogger env1 fresh).2.2)).1.id
        = fresh + 1 := by
  refine ⟨?_, rfl, rfl⟩
  intro h
  have h2 := congrArg Logger.id h
  simp only [FactoryState.mk0, FactoryState.getLogger, FactoryState.reset,
    createLogger] at h2
  omega

theorem reset_then_getLogger_fresh_witness :
    ((((FactoryState.mk0 none).getLogger {} 0).2.1.reset).getLogger {}
          (((FactoryState.mk0 none).getLogger {} 0).2.2)).1
        ≠ ((FactoryState.mk0 none).getLogger {} 0).1 ∧
    ((((FactoryState.mk0 none).getLogger {} 0).2.1.reset).getLogger {}
          (((FactoryState.mk0 none).getLogger {} 0).2.2)).1.options
        = Option.getD none (createLoggerConfig {}) ∧
    ((((FactoryState.mk0 none).getLogger {} 0).2.1.reset).getLogger {}
          (((FactoryState.mk0 none).getLogger {} 0).2.2)).1.id
        = 0 + 1 :=
  reset_then_getLogger_fresh none {} {} 0

/-- C8: a child logger merges its bound fields into every record it emits, in
addition to the mixin resolved at that emission, and creating or using a
child never changes the parent: the parent handed back by the call is the
original, its emissions are unchanged, and any number of children may be
derived from it. (The `child`/emission semantics of the pino sink are
modelled from the spec, being external to `src/`.) -/
theorem createChildLogger_frame (parent : PinoView) (fields mixin data : Fields)
    (k : String) (v : JsVal) :
    ((createChildLogger parent fields).2 = parent) ∧
    ((k, v) ∈ fields → (k, v) ∈ emitRecord (createChildLogger parent fields).1 mixin data) ∧
    ((k, v) ∈ mixin → (k, v) ∈ emitRecord (createChildLogger parent fields).1 mixin data) ∧
    ((k, v) ∈ data → (k, v) ∈ emitRecord (createChildLogger parent fields).1 mixin data) ∧
    (emitRecord (createChildLogger parent fields).2 mixin data
        = emitRecord parent mixin data) ∧
    (∀ f2 : Fields, (createChildLogger parent f2).2 = parent) := by
  refine ⟨rfl, ?_, ?_, ?_, rfl, fun _ => rfl⟩ <;> intro h <;>
    simp [createChildLogger, pinoChild, emitRecord] <;> tauto

theorem createChildLogger_frame_witness :
    ((createChildLogger ⟨[]⟩ [("request_id", .str "abc")]).2 = (⟨[]⟩ : PinoView)) ∧
    ("request_id", JsVal.str "abc")
      ∈ emitRecord (createChildLogger ⟨[]⟩ [("request_id", .str "abc")]).1
          [("trace_id", .str "t")] [] :=
  ⟨(createChildLogger_frame ⟨[]⟩ [("request_id", .str "abc")] [("trace_id", .str "t")] []
      "request_id" (.str "abc")).1,
   (createChildLogger_frame ⟨[]⟩ [("request_id", .str "abc")] [("trace_id", .str "t")] []
      "request_id" (.str "abc")).2.1 (by decide)⟩

/-- C9 counterexample: for a handle whose `shutdown()` rejects with `"boom"`,
`shutdownOTel` resolves and logs the failure — but via `console.error`, so no
warning-level message is emitted, refuting the claim as stated. -/
theorem shutdownOTel_counterexample :
    ¬ claimShutdownAt (some ⟨Except.error "boom"⟩) := by
  intro hc
  obtain ⟨-, -, hwarn⟩ := hc
  obtain ⟨m, hm, hlev, -⟩ := hwarn ⟨Except.error "boom"⟩ "boom" rfl rfl
  simp [shutdownOTel] at hm
  rw [hm] at hlev
  exact absurd hlev (by decide)

/-- C9 (amended): `shutdownOTel` always resolves: a null handle is an
idempotent no-op, and a rejecting `shutdown()` is caught inside, logged as an
error-level console message naming the failure, and never re-thrown. -/
theorem shutdownOTel_always_resolves (sdk : Option NodeSDKHandle) :
    (shutdownOTel sdk).1 = .ok () ∧
    (sdk = none → (shutdownOTel sdk).2 = []) ∧
    (∀ h e, sdk = some h → h.shutdownResult = .error e →
      (shutdownOTel sdk).2 = [⟨.err, "Error shutting down OpenTelemetry SDK: " ++ e⟩]) := by
  refine ⟨?_, ?_, ?_⟩
  · cases sdk with
    | none => rfl
    | some h =>
      cases hr : h.shutdownResult with
      | ok u => cases u; simp [shutdownOTel, hr]
      | error e => simp [shutdownOTel, hr]
  · intro hn
    subst hn
    rfl
  · intro h e hs hr
    subst hs
    simp [shutdownOTel, hr]

theorem shutdownOTel_always_resolves_witness :
    (shutdownOTel (some ⟨Except.error "boom"⟩)).1 = .ok () ∧
    (shutdownOTel (some ⟨Except.error "boom"⟩)).2
        = [⟨.err, "Error shutting down OpenTelemetry SDK: " ++ "boom"⟩] ∧
    (shutdownOTel none).2 = [] :=
  ⟨(shutdownOTel_always_resolves (some ⟨Except.error "boom"⟩)).1,
   (shutdownOTel_always_resolves (some ⟨Except.error "boom"⟩)).2.2
      ⟨Except.error "boom"⟩ "boom" rfl rfl,
   (shutdownOTel_always_resolves none).2.1 rfl⟩

/-- C10: whenever a trace context is active, `logWithTrace` spreads the trace
fields after the caller's data, so the emitted bag's `trace_id`/`span_id`
equal the active context's identifiers whatever the caller supplied; with no
active context the data bag is passed through unmodified; and the dispatch
always forwards exactly that bag. -/
theorem logWithTrace_trace_wins (api : TraceApi) (data : Option Fields) (level : LogLevel) :
    (∀ tc : TraceContext, getTraceContext api = some tc →
      ∃ d : Fields, logWithTraceData api data = some d ∧
        d.lookup "trace_id" = some (.str tc.traceId) ∧
        d.lookup "span_id" = some (.str tc.spanId)) ∧
    (getTraceContext api = none → logWithTraceData api data = data) ∧
    ((logWithTrace level api data).2 = logWithTraceData api data) := by
  refine ⟨?_, ?_, ?_⟩
  · intro tc htc
    refine ⟨((data.getD []).set "trace_id" (.str tc.traceId)).set "span_id"
        (.str tc.spanId), ?_, ?_, ?_⟩
    · simp [logWithTraceData, htc]
    · rw [Fields.lookup_set_ne _ (by decide : "trace_id" ≠ "span_id")]
      exact Fields.lookup_set_self _ _ _
    · exact Fields.lookup_set_self _ _ _
  · intro h
    simp [logWithTraceData, h]
  · cases level <;> rfl

theorem logWithTrace_trace_wins_witness :
    ∃ d : Fields,
      logWithTraceData (.ok (some ⟨"tid", "sid"⟩))
          (some [("trace_id", .str "caller-t"), ("span_id", .str "caller-s")]) = some d ∧
      d.lookup "trace_id" = some (.str "tid") ∧
      d.lookup "span_id" = some (.str "sid") :=
  (logWithTrace_trace_wins (.ok (some ⟨"tid", "sid"⟩))
      (some [("trace_id", .str "caller-t"), ("span_id", .str "caller-s")]) .info).1
    ⟨"tid", "sid"⟩ rfl

end BunLog
